import Mathlib

/-
Shallow embedding of src/generate_preview_and_json.py (PSD preview and JSON
extraction glue): the image-content classifier (analyze_image_content), the
layer-property reader (get_layer_properties), the per-layer export pipeline
(export_layer), the summary counter (count_layers) and the top-level driver
(process_psd_file).  Python exceptions are modelled with Except String;
dynamic dictionary values with the PyVal type; PIL images with explicit
pixel lists.  Floating point standard deviations are compared to 1 in the
source; those comparisons are embedded exactly through integer variance
comparisons (std < 1 iff variance < 1).
-/

set_option maxHeartbeats 1000000

namespace AssetGen

/-- Dynamic Python values appearing in layer metadata (engine dictionaries,
style sheets, tagged blocks).  Numeric literals are modelled as integers; the
only float literals reached by the modelled code are the transform defaults
1.0 and 0.0, which are exact integers. -/
inductive PyVal where
  | none
  | num (n : Int)
  | str (s : String)
  | list (xs : List PyVal)
  | dict (entries : List (String × PyVal))

/-- Python truthiness for the modelled values. -/
def PyVal.truthy : PyVal → Bool
  | .none => false
  | .num n => n != 0
  | .str s => s != ""
  | .list xs => !xs.isEmpty
  | .dict es => !es.isEmpty

/-- Python computations that may raise: Except carries the exception text. -/
abbrev PyResult (α : Type) := Except String α

/-- Boolean prefix test on character lists. -/
def isPrefixB : List Char → List Char → Bool
  | [], _ => true
  | _ :: _, [] => false
  | a :: as, b :: bs => a == b && isPrefixB as bs

/-- Boolean infix test on character lists. -/
def isInfixB (pat : List Char) : List Char → Bool
  | [] => isPrefixB pat []
  | b :: bs => isPrefixB pat (b :: bs) || isInfixB pat bs

/-- Python substring test: pat in s. -/
def strContains (s pat : String) : Bool := isInfixB pat.toList s.toList

/-- Python membership test, k in v, for a string k: dictionaries test key
membership, strings test substring, lists test element equality against the
string; other values raise TypeError. -/
def pyContains (k : String) : PyVal → PyResult Bool
  | .dict es => .ok (es.any (fun e => e.1 == k))
  | .str s => .ok (strContains s k)
  | .list xs => .ok (xs.any (fun x => match x with | .str s => s == k | _ => false))
  | _ => .error "TypeError: argument is not iterable"

/-- Python subscript v[k] with a string key: dictionary lookup (KeyError when
absent); every other value raises. -/
def pyIndex (k : String) : PyVal → PyResult PyVal
  | .dict es =>
    match es.find? (fun e => e.1 == k) with
    | some e => .ok e.2
    | Option.none => .error "KeyError"
  | _ => .error "TypeError: object is not subscriptable with a string key"

/-- Python subscript v[0]: first list element (IndexError when empty), first
character of a string; dictionaries raise KeyError for the integer key, other
values raise TypeError. -/
def pyFirst : PyVal → PyResult PyVal
  | .list (x :: _) => .ok x
  | .list [] => .error "IndexError: list index out of range"
  | .str s => if s == "" then .error "IndexError" else .ok (.str (String.singleton s.front))
  | .dict _ => .error "KeyError: 0"
  | _ => .error "TypeError: object is not subscriptable"

/-- Python len(v): lists, strings and dictionaries have a length; other
values raise TypeError. -/
def pyLen : PyVal → PyResult Int
  | .list xs => .ok xs.length
  | .str s => .ok s.length
  | .dict es => .ok es.length
  | _ => .error "TypeError: object has no length"

/-- Dictionary lookup with a default, the semantics of dict.get. -/
def dictGet (es : List (String × PyVal)) (k : String) (dflt : PyVal) : PyVal :=
  ((es.find? (fun e => e.1 == k)).map (fun e => e.2)).getD dflt

/-- Python v.get(k, default): only dictionaries have a get method; every other
value raises AttributeError. -/
def pyGet (k : String) (dflt : PyVal) : PyVal → PyResult PyVal
  | .dict es => .ok (dictGet es k dflt)
  | _ => .error "AttributeError: object has no attribute get"

/-- A PIL image as seen through numpy in the source: mode string, info
transparency flag, size, the numpy array shape (ndim3 true when the array is
height by width by channels) and the row-major pixel list, each pixel a list
of channel values. -/
structure PILImage where
  mode : String
  transparency_info : Bool
  width : Nat
  height : Nat
  ndim3 : Bool
  channels : Nat
  pixels : List (List Nat)

/-- Sum of a list of naturals as an integer. -/
def sumInt (xs : List Nat) : Int := xs.foldl (fun a x => a + (x : Int)) 0

/-- Sum of squares of a list of naturals as an integer. -/
def sumSqInt (xs : List Nat) : Int := xs.foldl (fun a x => a + (x : Int) * (x : Int)) 0

/-- Exact embedding of np.std(xs) < 1: for a nonempty list, std < 1 iff
n * sum of squares - (sum) squared < n squared; np.std of an empty array is
NaN and NaN < 1 is false. -/
def stdLtOne (xs : List Nat) : Bool :=
  let n : Int := xs.length
  if n == 0 then false
  else n * sumSqInt xs - sumInt xs * sumInt xs < n * n

/-- Exact embedding of np.std(xs) > 1 (same variance comparison, other
direction; false on the empty array since NaN > 1 is false). -/
def stdGtOne (xs : List Nat) : Bool :=
  let n : Int := xs.length
  if n == 0 then false
  else n * sumSqInt xs - sumInt xs * sumInt xs > n * n

/-- The dictionary returned by analyze_image_content, with one optional field
per key that is only present on some paths.  The float fields of the source
dictionary (transparency_ratio, rgb_std, color_std) are reporting-only values
never read back by the program and are omitted; the comparisons of the stds
against 1 are kept exactly (stdLtOne, stdGtOne). -/
structure ImageAnalysis where
  is_empty : Bool
  reason : Option String := Option.none
  non_transparent_pixels : Option Nat := Option.none
  total_pixels : Option Nat := Option.none
  has_color_variation : Option Bool := Option.none
  unique_colors : Option Nat := Option.none
  size : Option (Nat × Nat) := Option.none

/-- analyze_image_content from the source.  The argument is None or an image;
the result is None exactly when the Python function falls off the end of the
RGBA branch (alpha channel slice unavailable), which the caller then trips
over.  In the RGBA branch the alpha channel is pixel component 3; rgb values
of non-transparent pixels feed the color-variation std.  In the non-alpha
branch emptiness is std < 1 together with at most one unique color. -/
def analyze_image_content : Option PILImage → Option ImageAnalysis
  | Option.none => some { is_empty := true, reason := some "no_image" }
  | some image =>
    let has_alpha := image.mode == "RGBA" || image.mode == "LA" || image.transparency_info
    if has_alpha && image.mode == "RGBA" then
      if image.ndim3 && decide (4 ≤ image.channels) then
        let alphas := image.pixels.map (fun p => p.getD 3 0)
        let non_transparent := (alphas.filter (fun a => decide (0 < a))).length
        let total := alphas.length
        if 0 < non_transparent then
          let rgb_data := ((image.pixels.filter (fun p => decide (0 < p.getD 3 0))).map
            (fun p => p.take 3)).flatten
          some { is_empty := false,
                 non_transparent_pixels := some non_transparent,
                 total_pixels := some total,
                 has_color_variation := some (stdGtOne rgb_data),
                 size := some (image.width, image.height) }
        else
          some { is_empty := true, reason := some "fully_transparent",
                 total_pixels := some total,
                 size := some (image.width, image.height) }
      else
        Option.none
    else
      let all_values := image.pixels.flatten
      let std_lt_one := stdLtOne all_values
      let unique_colors := image.pixels.dedup.length
      some { is_empty := std_lt_one && decide (unique_colors ≤ 1),
             reason := some (if std_lt_one then "no_color_variation" else "has_content"),
             unique_colors := some unique_colors,
             size := some (image.width, image.height) }

/-- A tagged block of a layer record: optional 4-byte key (None models a
block object without a key attribute) and whether the block has a data
attribute. -/
structure TaggedBlock where
  key : Option String
  has_data : Bool

/-- The private record of a layer.  tagged_blocks is None when the record has
no such attribute; otherwise reading it either yields the block list or
raises. -/
structure LayerRecord where
  tagged_blocks : Option (PyResult (List TaggedBlock))

/-- The six coefficients stored under the transform key of the text style. -/
structure TransformStyle where
  xx : PyVal
  xy : PyVal
  yx : PyVal
  yy : PyVal
  tx : PyVal
  ty : PyVal

/-- The text_style dictionary built by get_layer_properties: a field is some v
exactly when the corresponding key was assigned (v itself may be PyVal.none,
mirroring a key bound to Python None). -/
structure TextStyle where
  has_engine_data : Option Bool := Option.none
  has_alt_text_data : Option Bool := Option.none
  font_family : Option PyVal := Option.none
  font_size : Option PyVal := Option.none
  color : Option PyVal := Option.none
  tracking : Option PyVal := Option.none
  leading : Option PyVal := Option.none
  alignment : Option PyVal := Option.none
  justification : Option PyVal := Option.none
  transform : Option TransformStyle := Option.none

/-- Python nonempty test on the text_style dictionary. -/
def TextStyle.nonempty (ts : TextStyle) : Bool :=
  ts.has_engine_data.isSome || ts.has_alt_text_data.isSome || ts.font_family.isSome ||
  ts.font_size.isSome || ts.color.isSome || ts.tracking.isSome || ts.leading.isSome ||
  ts.alignment.isSome || ts.justification.isSome || ts.transform.isSome

/-- The loop over record.tagged_blocks: a block whose key is TySh and which
has a data attribute sets has_engine_data; a block whose key is tySh sets
has_alt_text_data; other blocks are skipped. -/
def scan_blocks (bs : List TaggedBlock) (ts0 : TextStyle) : TextStyle :=
  bs.foldl
    (fun ts b =>
      if b.key == some "TySh" then
        if b.has_data then { ts with has_engine_data := some true } else ts
      else if b.key == some "tySh" then { ts with has_alt_text_data := some true }
      else ts)
    ts0

/-- The first try block of the text branch: reading the tagged blocks.  The
result pairs the text style with a flag recording whether an exception was
raised and swallowed by the bare except. -/
def tagged_blocks_body (record : Option LayerRecord) (ts0 : TextStyle) : TextStyle × Bool :=
  match record with
  | some r =>
    match r.tagged_blocks with
    | some (.ok bs) => (scan_blocks bs ts0, false)
    | some (.error _) => (ts0, true)
    | Option.none => (ts0, false)
  | Option.none => (ts0, false)

/-- The StyleRun part of the engine dictionary walk.  All five style sheet
fields are assigned by consecutive get calls on the same dictionary, so the
step either assigns all five or raises before assigning any. -/
def style_run_step (ed : PyVal) (ts : TextStyle) : PyResult TextStyle := do
  let b ← pyContains "StyleRun" ed
  if b then
    let style_runs ← pyIndex "StyleRun" ed
    if style_runs.truthy then
      let n ← pyLen style_runs
      if 0 < n then
        let first_style ← pyFirst style_runs
        let b2 ← pyContains "StyleSheet" first_style
        if b2 then
          let stylesheet ← pyIndex "StyleSheet" first_style
          let b3 ← pyContains "StyleSheetData" stylesheet
          if b3 then
            let style_data ← pyIndex "StyleSheetData" stylesheet
            let ff ← pyGet "Font" .none style_data
            let fs ← pyGet "FontSize" .none style_data
            let fc ← pyGet "FillColor" .none style_data
            let tr ← pyGet "Tracking" .none style_data
            let ld ← pyGet "Leading" .none style_data
            return { ts with font_family := some ff, font_size := some fs,
                             color := some fc, tracking := some tr, leading := some ld }
          else return ts
        else return ts
      else return ts
    else return ts
  else return ts

/-- The ParagraphRun part of the engine dictionary walk. -/
def paragraph_run_step (ed : PyVal) (ts : TextStyle) : PyResult TextStyle := do
  let b ← pyContains "ParagraphRun" ed
  if b then
    let para_runs ← pyIndex "ParagraphRun" ed
    if para_runs.truthy then
      let n ← pyLen para_runs
      if 0 < n then
        let first_para ← pyFirst para_runs
        let b2 ← pyContains "ParagraphSheet" first_para
        if b2 then
          let para_sheet ← pyIndex "ParagraphSheet" first_para
          let b3 ← pyContains "ParagraphSheetData" para_sheet
          if b3 then
            let para_data ← pyIndex "ParagraphSheetData" para_sheet
            let al ← pyGet "Alignment" .none para_data
            let ju ← pyGet "Justification" .none para_data
            return { ts with alignment := some al, justification := some ju }
          else return ts
        else return ts
      else return ts
    else return ts
  else return ts

/-- The Transform part of the engine dictionary walk: absent coefficients
default to the identity transform values 1.0 and 0.0 (modelled as the exact
integers 1 and 0). -/
def transform_step (ed : PyVal) (ts : TextStyle) : PyResult TextStyle := do
  let b ← pyContains "Transform" ed
  if b then
    let transform ← pyIndex "Transform" ed
    let xx ← pyGet "xx" (.num 1) transform
    let xy ← pyGet "xy" (.num 0) transform
    let yx ← pyGet "yx" (.num 0) transform
    let yy ← pyGet "yy" (.num 1) transform
    let tx ← pyGet "tx" (.num 0) transform
    let ty ← pyGet "ty" (.num 0) transform
    return { ts with transform := some { xx := xx, xy := xy, yx := yx, yy := yy, tx := tx, ty := ty } }
  else return ts

/-- Attribute lookup with default None, modelling getattr(obj, k, None) on the
text_data object. -/
def attrLookup (attrs : List (String × PyVal)) (k : String) : PyVal :=
  ((attrs.find? (fun e => e.1 == k)).map (fun e => e.2)).getD .none

/-- The second try block of the text branch: the text_data attribute probe
followed by the engine dictionary walk.  Each of the three engine steps is
atomic (it assigns its fields only after all its reads succeeded), so on an
exception the style accumulated by the completed steps is kept, and the bare
except swallows the exception; the flag records whether one was raised. -/
def text_styles_body (text_data : Option (List (String × PyVal)))
    (engine_dict : Option PyVal) (ts0 : TextStyle) : TextStyle × Bool :=
  let ts1 :=
    match text_data with
    | some attrs =>
      { ts0 with font_family := some (attrLookup attrs "font"),
                 font_size := some (attrLookup attrs "size"),
                 color := some (attrLookup attrs "color") }
    | Option.none => ts0
  match engine_dict with
  | some ed =>
    if ed.truthy then
      match style_run_step ed ts1 with
      | .error _ => (ts1, true)
      | .ok ts2 =>
        match paragraph_run_step ed ts2 with
        | .error _ => (ts2, true)
        | .ok ts3 =>
          match transform_step ed ts3 with
          | .error _ => (ts3, true)
          | .ok ts4 => (ts4, false)
    else (ts1, false)
  | Option.none => (ts1, false)

/-- The attributes of one psd-tools layer object as probed by the source.
Optional fields model getattr probes (None = attribute absent; for text and
text_data, absent-or-falsy is collapsed to None since only truthiness is
observed).  topil, composite and forced composite are the three extraction
calls, each returning None or an image or raising.  save_raises models
image.save raising inside the per-layer try block. -/
structure LayerData where
  layer_id : Int
  name : String
  kind : Option String
  visible : Bool
  opacity : Option Nat
  blend_mode : Option String
  has_mask : Option Bool
  has_vector_mask : Option Bool
  has_effects : Option Bool
  clipping_layer : Option Bool
  bbox : Option (List Int)
  size : Option (Nat × Nat)
  text : Option String
  record : Option LayerRecord
  text_data : Option (List (String × PyVal))
  engine_dict : Option PyVal
  is_group : Bool
  topil : PyResult (Option PILImage)
  has_pixels : Bool
  composite : PyResult (Option PILImage)
  composite_forced : PyResult (Option PILImage)
  has_composite_attr : Bool
  save_raises : Bool

/-- A layer together with its ordered child layers. -/
inductive Layer where
  | mk (data : LayerData) (children : List Layer)

/-- The flat attribute part of a layer. -/
def Layer.data : Layer → LayerData
  | .mk d _ => d

/-- The ordered child list of a layer. -/
def Layer.children : Layer → List Layer
  | .mk _ cs => cs

/-- The name of a layer. -/
def Layer.name (l : Layer) : String := l.data.name

/-- The properties dictionary built by get_layer_properties.  str(None) is the
string None for the blend mode; the getattr defaults for kind and the mask
and effects probes are applied here. -/
structure LayerProperties where
  kind : String
  visible : Bool
  opacity : Option Nat
  blend_mode : String
  has_mask : Bool
  has_vector_mask : Bool
  has_effects : Bool
  clipping_layer : Option Bool
  bbox : Option (List Int)
  size : Option (Nat × Nat)
  text : Option String := Option.none
  text_style : Option TextStyle := Option.none

/-- get_layer_properties from the source: the flat attribute probes, then,
for a layer whose text attribute is present and truthy, the two text-style
try blocks; the style dictionary is attached only when nonempty. -/
def get_layer_properties (l : LayerData) : LayerProperties :=
  let base : LayerProperties :=
    { kind := l.kind.getD "unknown",
      visible := l.visible,
      opacity := l.opacity,
      blend_mode := l.blend_mode.getD "None",
      has_mask := l.has_mask.getD false,
      has_vector_mask := l.has_vector_mask.getD false,
      has_effects := l.has_effects.getD false,
      clipping_layer := l.clipping_layer,
      bbox := l.bbox,
      size := l.size }
  match l.text with
  | some t =>
    if t == "" then base
    else
      let ts1 := (tagged_blocks_body l.record {}).1
      let ts2 := (text_styles_body l.text_data l.engine_dict ts1).1
      { base with text := some t,
                  text_style := if ts2.nonempty then some ts2 else Option.none }
  | Option.none => base

/-- The preview file name: prefix, underscore, layer name, .png, with spaces
replaced by underscores and slashes by dashes.  The two str.replace calls of
the source have single-character patterns, so they are character maps. -/
def pyReplaceChar (s : String) (c r : Char) : String :=
  String.mk (s.toList.map (fun x => if x == c then r else x))

/-- Builds the preview file name for a leaf layer. -/
def preview_name (pfx name : String) : String :=
  pyReplaceChar (pyReplaceChar (pfx ++ "_" ++ name ++ ".png") ' ' '_') '/' '-'

/-- The three-method extraction cascade of export_layer: topil first; plain
composite only when no image yet and the layer reports pixels; forced
composite only when still no image and the layer has a composite attribute.
Exceptions from each method are caught in place and leave the state
unchanged.  Returns the image (if any) and the name of the method that
produced it. -/
def extract_image (l : LayerData) : Option PILImage × Option String :=
  let st :=
    match l.topil with
    | .ok (some img) => (some img, some "topil")
    | _ => ((Option.none : Option PILImage), (Option.none : Option String))
  let st :=
    if st.1.isNone && l.has_pixels then
      match l.composite with
      | .ok (some img) => (some img, some "composite")
      | _ => st
    else st
  let st :=
    if st.1.isNone && l.has_composite_attr then
      match l.composite_forced with
      | .ok (some img) => (some img, some "composite_forced")
      | _ => st
    else st
  st

/-- The body of the per-layer try block for a non-group layer, returning the
preview status, the preview file name and the image analysis.  When an image
was extracted the analysis and the file name are assigned before image.save
runs, so a save exception reaches the per-layer handler (status error) with
both already set; an analysis of Python None makes the subsequent get call
raise, likewise reaching the handler.  Otherwise the status classifies the
empty or successful extraction; with no image it depends on has_pixels. -/
def process_leaf (l : LayerData) (fname : String) :
    String × Option String × Option ImageAnalysis :=
  match extract_image l with
  | (some img, method) =>
    let analysis := analyze_image_content (some img)
    if l.save_raises then ("error", some fname, analysis)
    else
      match analysis with
      | Option.none => ("error", some fname, Option.none)
      | some a =>
        if a.is_empty then
          ("extracted_but_empty_" ++ a.reason.getD "unknown", some fname, analysis)
        else
          ("success_" ++ method.getD "None", some fname, analysis)
  | (Option.none, _) =>
    if l.has_pixels then ("has_pixels_but_no_extraction", Option.none, Option.none)
    else ("no_pixels", Option.none, Option.none)

/-- One entry of the emitted layer JSON: identity, type, preview status and
properties are always present; image_analysis and preview only when assigned;
children only for group layers. -/
inductive LayerDict where
  | mk (id : Int) (name : String) (type : String) (preview_status : String)
       (layer_properties : LayerProperties) (image_analysis : Option ImageAnalysis)
       (preview : Option String) (children : Option (List LayerDict))

/-- The id field of a layer dictionary. -/
def LayerDict.id : LayerDict → Int
  | .mk i _ _ _ _ _ _ _ => i

/-- The name field of a layer dictionary. -/
def LayerDict.name : LayerDict → String
  | .mk _ n _ _ _ _ _ _ => n

/-- The type field of a layer dictionary. -/
def LayerDict.type : LayerDict → String
  | .mk _ _ t _ _ _ _ _ => t

/-- The preview_status field of a layer dictionary. -/
def LayerDict.preview_status : LayerDict → String
  | .mk _ _ _ ps _ _ _ _ => ps

/-- The layer_properties field of a layer dictionary. -/
def LayerDict.layer_properties : LayerDict → LayerProperties
  | .mk _ _ _ _ lp _ _ _ => lp

/-- The image_analysis field of a layer dictionary (None when absent). -/
def LayerDict.image_analysis : LayerDict → Option ImageAnalysis
  | .mk _ _ _ _ _ ia _ _ => ia

/-- The preview field of a layer dictionary (None when absent). -/
def LayerDict.preview : LayerDict → Option String
  | .mk _ _ _ _ _ _ pv _ => pv

/-- The children field of a layer dictionary (None when absent). -/
def LayerDict.children : LayerDict → Option (List LayerDict)
  | .mk _ _ _ _ _ _ _ ch => ch

mutual

/-- export_layer from the source: properties are read first; for a non-group
layer the extraction pipeline runs inside the per-layer try block; the entry
always carries id, name, type and status, image_analysis and preview when
assigned, and children exactly for group layers. -/
def export_layer : Layer → String → LayerDict
  | .mk d cs, pfx =>
    let kind := d.kind.getD "group"
    let props := get_layer_properties d
    let st :=
      if d.is_group then
        (("not_attempted" : String), (Option.none : Option String),
         (Option.none : Option ImageAnalysis))
      else process_leaf d (preview_name pfx d.name)
    let kids := export_children cs (pfx ++ "_" ++ d.name)
    LayerDict.mk d.layer_id d.name kind st.1 props st.2.2 st.2.1
      (if d.is_group then some kids else Option.none)

/-- The list comprehension over the children of a group layer, in order. -/
def export_children : List Layer → String → List LayerDict
  | [], _ => []
  | c :: cs, pfx => export_layer c pfx :: export_children cs pfx

end

/-- The four summary counters. -/
structure Summary where
  total_layers : Nat := 0
  successful_extractions : Nat := 0
  empty_extractions : Nat := 0
  failed_extractions : Nat := 0

/-- The counting of one leaf entry by count_layers (only the preview status
of the entry is read): total always increments, then the status string is
classified by substring tests: success-with-empty into the empty bucket,
success-without-empty into the successful bucket, everything else into the
failed bucket. -/
def count_leaf (s : Summary) (status : String) : Summary :=
  let s := { s with total_layers := s.total_layers + 1 }
  if strContains status "success" then
    if strContains status "empty" then
      { s with empty_extractions := s.empty_extractions + 1 }
    else
      { s with successful_extractions := s.successful_extractions + 1 }
  else
    { s with failed_extractions := s.failed_extractions + 1 }

mutual

/-- The body of the count_layers loop for one entry: an entry whose children
key is absent or an empty list is falsy under layer.get and is counted as a
leaf; an entry with a nonempty children list is not counted itself but its
children are visited. -/
def count_one : Summary → LayerDict → Summary
  | s, .mk _ _ _ ps _ _ _ Option.none => count_leaf s ps
  | s, .mk _ _ _ ps _ _ _ (some []) => count_leaf s ps
  | s, .mk _ _ _ _ _ _ _ (some (k :: ks)) => count_layers s (k :: ks)

/-- count_layers from the source, threading the four counters through the
entries in order. -/
def count_layers : Summary → List LayerDict → Summary
  | s, [] => s
  | s, d :: rest => count_layers (count_one s d) rest

end

/-- A parsed PSD document as the driver uses it. -/
structure PSD where
  layers : List Layer
  width : Nat
  height : Nat
  color_mode : String
  depth : Nat

/-- How PSDImage.open can fail: a ValueError with a message, or an exception
of any other class (which the driver does not catch). -/
inductive OpenError where
  | valueError (msg : String)
  | otherError (msg : String)

/-- The environment of one process_psd_file run: whether the path exists, the
outcome of the plain open and the outcome of the forced open. -/
structure PsdSource where
  file_exists : Bool
  open_result : Except OpenError PSD
  open_force_result : Except String PSD

/-- The JSON document written by the driver. -/
structure OutputData where
  psd_file : String
  summary : Summary
  psd_size : Nat × Nat
  psd_color_mode : String
  psd_depth : Nat
  layers : List LayerDict

/-- Every layer is exported with its own name as the filename prefix, the
counters run over the resulting entries, and the output document is
assembled. -/
def build_output (fname : String) (psd : PSD) : OutputData :=
  let lj := psd.layers.map (fun l => export_layer l (Layer.name l))
  { psd_file := fname,
    summary := count_layers {} lj,
    psd_size := (psd.width, psd.height),
    psd_color_mode := psd.color_mode,
    psd_depth := psd.depth,
    layers := lj }

/-- The observable outcome of process_psd_file: it returns True having built
the output, returns False, or lets an exception propagate. -/
inductive ProcessResult where
  | completed (out : OutputData)
  | returned_false
  | raised (msg : String)

/-- process_psd_file from the source.  A missing file returns False.  A
ValueError from the open whose message contains the ColorMode marker triggers
one forced retry: its success proceeds, any exception from it returns False.
A ValueError without the marker returns False.  An exception of any other
class is not caught by the except ValueError clause and propagates. -/
def process_psd_file (fname : String) (src : PsdSource) : ProcessResult :=
  if !src.file_exists then .returned_false
  else
    match src.open_result with
    | .ok psd => .completed (build_output fname psd)
    | .error (OpenError.valueError m) =>
      if strContains m "is not a valid ColorMode" then
        match src.open_force_result with
        | .ok psd => .completed (build_output fname psd)
        | .error _ => .returned_false
      else .returned_false
    | .error (OpenError.otherError m) => .raised m

/-- The name-and-grouping shape of a tree of layers or of exported entries:
each node carries its name and, exactly for group nodes, the ordered shapes
of its children. -/
inductive NameTree where
  | node (name : String) (kids : Option (List NameTree))

mutual

/-- The shape of a source layer: children are recorded exactly when the layer
is a group, in their original order. -/
def Layer.shape : Layer → NameTree
  | .mk d cs => .node d.name (if d.is_group then some (Layer.shapeList cs) else Option.none)

/-- Shapes of a list of layers, in order. -/
def Layer.shapeList : List Layer → List NameTree
  | [] => []
  | c :: cs => Layer.shape c :: Layer.shapeList cs

end

mutual

/-- The shape of an exported entry: its name and, when the children key is
present, the ordered shapes of the children entries. -/
def LayerDict.shape : LayerDict → NameTree
  | .mk _ n _ _ _ _ _ ch =>
    .node n (match ch with
             | some ds => some (LayerDict.shapeList ds)
             | Option.none => Option.none)

/-- Shapes of a list of entries, in order. -/
def LayerDict.shapeList : List LayerDict → List NameTree
  | [] => []
  | d :: ds => LayerDict.shape d :: LayerDict.shapeList ds

end

/-- A neutral pixel layer for concrete evaluations: not a group, no text, no
pixels, all extraction calls return None without raising. -/
def baseLayerData : LayerData :=
  { layer_id := 1, name := "layer", kind := some "pixel", visible := true,
    opacity := some 255, blend_mode := some "BlendMode.NORMAL",
    has_mask := some false, has_vector_mask := some false, has_effects := some false,
    clipping_layer := some false, bbox := some [0, 0, 1, 1], size := some (1, 1),
    text := Option.none, record := Option.none, text_data := Option.none,
    engine_dict := Option.none, is_group := false,
    topil := .ok Option.none, has_pixels := false,
    composite := .ok Option.none, composite_forced := .ok Option.none,
    has_composite_attr := true, save_raises := false }

/-- A one-pixel RGBA image that is fully transparent. -/
def transparentImg : PILImage :=
  { mode := "RGBA", transparency_info := false, width := 1, height := 1,
    ndim3 := true, channels := 4, pixels := [[0, 0, 0, 0]] }

/-- A one-pixel solid red, fully opaque RGBA image. -/
def opaqueImg : PILImage :=
  { mode := "RGBA", transparency_info := false, width := 1, height := 1,
    ndim3 := true, channels := 4, pixels := [[255, 0, 0, 255]] }

/-- A leaf layer whose topil decodes to the fully transparent image. -/
def transparentLayer : Layer :=
  .mk { baseLayerData with topil := .ok (some transparentImg) } []

/-- A leaf layer whose topil decodes to the opaque red image. -/
def opaqueLayer : Layer :=
  .mk { baseLayerData with topil := .ok (some opaqueImg) } []

/-- A group layer with no children. -/
def emptyGroupLayer : Layer :=
  .mk { baseLayerData with is_group := true, kind := some "group" } []

/-- A leaf layer reporting pixels whose three extraction methods all raise. -/
def failLayerData : LayerData :=
  { baseLayerData with
    topil := .error "channel decode failed", has_pixels := true,
    composite := .error "composite failed",
    composite_forced := .error "forced composite failed" }

/-- A one-layer document for driver evaluations. -/
def onePsd : PSD :=
  { layers := [transparentLayer], width := 1, height := 1,
    color_mode := "ColorMode.RGB", depth := 8 }

/-- A source whose plain open raises the invalid ColorMode ValueError and
whose forced open succeeds. -/
def c2Src : PsdSource :=
  { file_exists := true,
    open_result := .error (.valueError "270 is not a valid ColorMode"),
    open_force_result := .ok onePsd }

/-- A StyleRun value with one style sheet whose data dictionary is sd. -/
def styleRunSheets (sd : List (String × PyVal)) : PyVal :=
  .list [.dict [("StyleSheet", .dict [("StyleSheetData", .dict sd)])]]

/-- A StyleRun value with one style sheet carrying a font name and size. -/
def styleRunOf (fam fsz : PyVal) : PyVal :=
  styleRunSheets [("Font", fam), ("FontSize", fsz)]

/-- A ParagraphRun value with one paragraph sheet whose data dictionary is
pd. -/
def paraRunOf (pd : List (String × PyVal)) : PyVal :=
  .list [.dict [("ParagraphSheet", .dict [("ParagraphSheetData", .dict pd)])]]

/-- An engine dictionary with a style run, a paragraph run and a transform
dictionary. -/
def engineDictFull (sd pd td : List (String × PyVal)) : PyVal :=
  .dict [("StyleRun", styleRunSheets sd), ("ParagraphRun", paraRunOf pd),
         ("Transform", .dict td)]

/-- The identity transform the source defaults to: 1.0 on the diagonal and
0.0 elsewhere. -/
def identityTransform : TransformStyle :=
  { xx := PyVal.num 1, xy := PyVal.num 0, yx := PyVal.num 0,
    yy := PyVal.num 1, tx := PyVal.num 0, ty := PyVal.num 0 }

/-- A text layer whose engine dictionary holds an empty Transform entry. -/
def c6Layer : LayerData :=
  { baseLayerData with
    text := some "hello",
    engine_dict := some (.dict [("Transform", .dict [])]) }

/-- The child comprehension is a map over the children in order. -/
theorem export_children_eq_map (cs : List Layer) (p : String) :
    export_children cs p = cs.map (fun c => export_layer c p) := by
  induction cs with
  | nil => rfl
  | cons c cs ih => rw [export_children, List.map_cons, ih]

/-- Layer shape lists are maps of the shape function. -/
theorem layer_shapeList_eq_map (cs : List Layer) :
    Layer.shapeList cs = cs.map Layer.shape := by
  induction cs with
  | nil => rfl
  | cons c cs ih => rw [Layer.shapeList, List.map_cons, ih]

/-- Entry shape lists are maps of the shape function. -/
theorem dict_shapeList_eq_map (ds : List LayerDict) :
    LayerDict.shapeList ds = ds.map LayerDict.shape := by
  induction ds with
  | nil => rfl
  | cons d ds ih => rw [LayerDict.shapeList, List.map_cons, ih]

/-- An exported entry keeps the name of its layer. -/
theorem export_layer_name (l : Layer) (p : String) :
    (export_layer l p).name = l.name := by
  cases l with
  | mk d cs => simp [export_layer, LayerDict.name, Layer.name, Layer.data]

/-- Shape preservation for a child list follows from shape preservation of
each child. -/
theorem shapeList_congr : ∀ (cs : List Layer) (p : String),
    (∀ c ∈ cs, LayerDict.shape (export_layer c p) = Layer.shape c) →
    LayerDict.shapeList (export_children cs p) = Layer.shapeList cs := by
  intro cs p
  induction cs with
  | nil => intro _; rfl
  | cons c cs ih =>
    intro h
    rw [export_children, LayerDict.shapeList, Layer.shapeList, h c (by simp),
      ih (fun x hx => h x (by simp [hx]))]

/-- Exporting preserves the name-and-grouping shape of a layer, whatever the
extraction outcomes of any layer are. -/
theorem export_layer_shape : ∀ (l : Layer) (p : String),
    LayerDict.shape (export_layer l p) = Layer.shape l
  | .mk d cs, p => by
    have hkids : ∀ c ∈ cs,
        LayerDict.shape (export_layer c (p ++ "_" ++ d.name)) = Layer.shape c := by
      intro c hc
      exact export_layer_shape c (p ++ "_" ++ d.name)
    have hlist := shapeList_congr cs (p ++ "_" ++ d.name) hkids
    cases hg : d.is_group with
    | true =>
      simp only [export_layer, Layer.shape, dite_eq_ite, hg, if_true]
      simp [LayerDict.shape, hlist]
    | false =>
      simp only [export_layer, Layer.shape, dite_eq_ite, hg, Bool.false_eq_true, if_false]
      simp [LayerDict.shape]
termination_by l _ => sizeOf l
decreasing_by
  have hlt := List.sizeOf_lt_of_mem hc
  simp only [Layer.mk.sizeOf_spec]
  omega

/-- Exporting preserves the shapes of a child list, in order. -/
theorem export_children_shape (cs : List Layer) (p : String) :
    LayerDict.shapeList (export_children cs p) = Layer.shapeList cs :=
  shapeList_congr cs p (fun c _ => export_layer_shape c p)

/-- A filtered length is positive exactly when some element satisfies the
predicate. -/
theorem length_filter_pos_iff {α : Type} (xs : List α) (f : α → Bool) :
    0 < (xs.filter f).length ↔ ∃ x ∈ xs, f x = true := by
  rw [← List.countP_eq_length_filter, List.countP_pos_iff]

/-- In the RGBA branch, an image with some positive-alpha pixel is analyzed as
nonempty, with no reason key. -/
theorem analyze_rgba_nonempty (img : PILImage)
    (hm : img.mode = "RGBA") (hd : img.ndim3 = true) (hc : 4 ≤ img.channels)
    (hx : ∃ p ∈ img.pixels, 0 < p.getD 3 0) :
    ∃ a : ImageAnalysis, analyze_image_content (some img) = some a ∧
      a.is_empty = false ∧ a.reason = Option.none := by
  have hpos : 0 < ((img.pixels.map (fun p => p.getD 3 0)).filter
      (fun a => decide (0 < a))).length := by
    rw [length_filter_pos_iff]
    simpa using hx
  simp only [analyze_image_content]
  rw [hm, hd]
  have h1 : (("RGBA" == "RGBA" || "RGBA" == "LA" || img.transparency_info) &&
      ("RGBA" == "RGBA")) = true := by simp
  rw [if_pos h1]
  have h2 : (true && decide (4 ≤ img.channels)) = true := by simp [hc]
  rw [if_pos h2, if_pos hpos]
  exact ⟨_, rfl, rfl, rfl⟩

/-- In the RGBA branch, an image all of whose pixels have alpha zero is
analyzed as empty with reason fully_transparent. -/
theorem analyze_rgba_transparent (img : PILImage)
    (hm : img.mode = "RGBA") (hd : img.ndim3 = true) (hc : 4 ≤ img.channels)
    (ha : ∀ p ∈ img.pixels, p.getD 3 0 = 0) :
    ∃ a : ImageAnalysis, analyze_image_content (some img) = some a ∧
      a.is_empty = true ∧ a.reason = some "fully_transparent" := by
  have hzero : ((img.pixels.map (fun p => p.getD 3 0)).filter
      (fun a => decide (0 < a))).length = 0 := by
    rw [List.length_eq_zero, List.filter_eq_nil_iff]
    intro a hma
    rcases List.mem_map.mp hma with ⟨p, hp, rfl⟩
    rw [ha p hp]
    simp
  simp only [analyze_image_content]
  rw [hm, hd]
  have h1 : (("RGBA" == "RGBA" || "RGBA" == "LA" || img.transparency_info) &&
      ("RGBA" == "RGBA")) = true := by simp
  rw [if_pos h1]
  have h2 : (true && decide (4 ≤ img.channels)) = true := by simp [hc]
  rw [if_pos h2, if_neg (by rw [hzero]; exact Nat.lt_irrefl 0)]
  exact ⟨_, rfl, rfl, rfl⟩

/-- When topil yields an image, the cascade stops there. -/
theorem extract_image_topil (l : LayerData) (img : PILImage)
    (ht : l.topil = .ok (some img)) :
    extract_image l = (some img, some "topil") := by
  unfold extract_image
  rw [ht]
  simp

/-- When topil yields no image (None or an exception), the layer reports
pixels and plain composite yields an image, the cascade stops at composite. -/
theorem extract_image_composite (l : LayerData) (img : PILImage)
    (ht : l.topil = .ok Option.none ∨ ∃ e, l.topil = .error e)
    (hp : l.has_pixels = true) (hcomp : l.composite = .ok (some img)) :
    extract_image l = (some img, some "composite") := by
  unfold extract_image
  rcases ht with ht | ⟨e, ht⟩ <;> rw [ht] <;> simp [hp, hcomp]

/-- When topil and plain composite both yield no image and the layer has a
composite attribute, the cascade reaches the forced composite. -/
theorem extract_image_forced (l : LayerData) (img : PILImage)
    (ht : l.topil = .ok Option.none ∨ ∃ e, l.topil = .error e)
    (hcp : l.has_pixels = false ∨ l.composite = .ok Option.none ∨
      ∃ e, l.composite = .error e)
    (hattr : l.has_composite_attr = true)
    (hforce : l.composite_forced = .ok (some img)) :
    extract_image l = (some img, some "composite_forced") := by
  unfold extract_image
  rcases ht with ht | ⟨e, ht⟩ <;> rw [ht] <;>
    rcases hcp with hcp | hcp | ⟨e2, hcp⟩ <;> simp [hcp, hattr, hforce]

/-- When every method yields no image, the cascade produces nothing. -/
theorem extract_image_none (l : LayerData)
    (ht : l.topil = .ok Option.none ∨ ∃ e, l.topil = .error e)
    (hcp : l.has_pixels = false ∨ l.composite = .ok Option.none ∨
      ∃ e, l.composite = .error e)
    (hf : l.has_composite_attr = false ∨ l.composite_forced = .ok Option.none ∨
      ∃ e, l.composite_forced = .error e) :
    extract_image l = (Option.none, Option.none) := by
  unfold extract_image
  rcases ht with ht | ⟨e, ht⟩ <;> rw [ht] <;>
    rcases hcp with hcp | hcp | ⟨e2, hcp⟩ <;>
      rcases hf with hf | hf | ⟨e3, hf⟩ <;> simp [hcp, hf]

/-- With no extracted image the leaf status depends only on has_pixels, with
no preview and no analysis. -/
theorem process_leaf_no_image (l : LayerData) (fname : String)
    (hx : extract_image l = (Option.none, Option.none)) :
    process_leaf l fname =
      (if l.has_pixels then ("has_pixels_but_no_extraction", Option.none, Option.none)
       else ("no_pixels", Option.none, Option.none)) := by
  unfold process_leaf
  rw [hx]

/-- With an extracted image whose analysis is empty and a save that does not
raise, the leaf status is extracted_but_empty with the analysis reason. -/
theorem process_leaf_empty (l : LayerData) (fname : String) (img : PILImage)
    (m : String) (hx : extract_image l = (some img, some m))
    (hs : l.save_raises = false) (a : ImageAnalysis)
    (hae : analyze_image_content (some img) = some a) (haem : a.is_empty = true) :
    process_leaf l fname =
      ("extracted_but_empty_" ++ a.reason.getD "unknown", some fname, some a) := by
  unfold process_leaf
  rw [hx]
  simp only [hs, hae, haem]
  simp

/-- With an extracted image whose analysis is nonempty and a save that does
not raise, the leaf status records the successful method. -/
theorem process_leaf_success (l : LayerData) (fname : String) (img : PILImage)
    (m : String) (hx : extract_image l = (some img, some m))
    (hs : l.save_raises = false) (a : ImageAnalysis)
    (hae : analyze_image_content (some img) = some a) (haem : a.is_empty = false) :
    process_leaf l fname = ("success_" ++ m, some fname, some a) := by
  unfold process_leaf
  rw [hx]
  simp only [hs, hae, haem]
  simp

/-- With an extracted image and a raising save, the exception reaches the
per-layer handler: status error, with the file name already assigned. -/
theorem process_leaf_save_error (l : LayerData) (fname : String) (img : PILImage)
    (m : String) (hx : extract_image l = (some img, some m))
    (hs : l.save_raises = true) :
    (process_leaf l fname).1 = "error" := by
  unfold process_leaf
  rw [hx]
  simp [hs]

/-- The exported entry of a non-group layer carries the leaf-processing
outcome and no children key. -/
theorem export_layer_leaf (d : LayerData) (cs : List Layer) (p : String)
    (hg : d.is_group = false) :
    export_layer (.mk d cs) p =
      LayerDict.mk d.layer_id d.name (d.kind.getD "group")
        (process_leaf d (preview_name p d.name)).1 (get_layer_properties d)
        (process_leaf d (preview_name p d.name)).2.2
        (process_leaf d (preview_name p d.name)).2.1 Option.none := by
  simp [export_layer, hg]

/-- The exported entry of a group layer: status not_attempted, no analysis,
no preview, children present in order. -/
theorem export_layer_group (d : LayerData) (cs : List Layer) (p : String)
    (hg : d.is_group = true) :
    export_layer (.mk d cs) p =
      LayerDict.mk d.layer_id d.name (d.kind.getD "group")
        "not_attempted" (get_layer_properties d) Option.none Option.none
        (some (export_children cs (p ++ "_" ++ d.name))) := by
  simp [export_layer, hg]

/-- The counter invariant: the total equals the sum of the three buckets. -/
def Summary.balanced (s : Summary) : Prop :=
  s.total_layers = s.successful_extractions + s.empty_extractions + s.failed_extractions

/-- Counting one leaf preserves the counter invariant: the total and exactly
one bucket increment. -/
theorem count_leaf_balanced (s : Summary) (status : String) (h : s.balanced) :
    (count_leaf s status).balanced := by
  unfold Summary.balanced at *
  simp only [count_leaf]
  split <;> [skip; (exact by simp; omega)]
  split <;> simp <;> omega

/-- Counting one leaf always increments the total by exactly one. -/
theorem count_leaf_total (s : Summary) (status : String) :
    (count_leaf s status).total_layers = s.total_layers + 1 := by
  unfold count_leaf
  split
  · split <;> rfl
  · rfl

/-- count_layers preserves the counter invariant. -/
theorem count_layers_balanced : ∀ (ds : List LayerDict) (s : Summary),
    s.balanced → (count_layers s ds).balanced
  | [], _, h => h
  | .mk _ _ _ _ _ _ _ Option.none :: rest, s, h =>
    count_layers_balanced rest _ (count_leaf_balanced _ _ h)
  | .mk _ _ _ _ _ _ _ (some []) :: rest, s, h =>
    count_layers_balanced rest _ (count_leaf_balanced _ _ h)
  | .mk _ _ _ _ _ _ _ (some (k :: ks)) :: rest, s, h =>
    count_layers_balanced rest _ (count_layers_balanced (k :: ks) s h)

/-- Claim C9: for every RGBA image, analyze_image_content reports is_empty
false if and only if at least one pixel has alpha greater than zero; color
variation does not affect RGBA emptiness (any image with a visible pixel, in
particular a solid-color opaque one, is classified not empty), while a fully
transparent RGBA image is classified empty with reason fully_transparent. -/
theorem claim_C9_rgba_emptiness (img : PILImage)
    (hm : img.mode = "RGBA") (hd : img.ndim3 = true) (hc : 4 ≤ img.channels) :
    ∃ a : ImageAnalysis, analyze_image_content (some img) = some a ∧
      (a.is_empty = false ↔ ∃ p ∈ img.pixels, 0 < p.getD 3 0) ∧
      ((∀ p ∈ img.pixels, p.getD 3 0 = 0) →
        a.is_empty = true ∧ a.reason = some "fully_transparent") := by
  by_cases hx : ∃ p ∈ img.pixels, 0 < p.getD 3 0
  · rcases analyze_rgba_nonempty img hm hd hc hx with ⟨a, hEq, hEmp, _⟩
    refine ⟨a, hEq, ⟨fun _ => hx, fun _ => hEmp⟩, ?_⟩
    intro hall
    rcases hx with ⟨p, hp, hpos⟩
    rw [hall p hp] at hpos
    exact absurd hpos (Nat.lt_irrefl 0)
  · have hall : ∀ p ∈ img.pixels, p.getD 3 0 = 0 := by
      intro p hp
      by_contra hne
      exact hx ⟨p, hp, Nat.pos_of_ne_zero hne⟩
    rcases analyze_rgba_transparent img hm hd hc hall with ⟨a, hEq, hEmp, hRe⟩
    refine ⟨a, hEq, ?_, fun _ => ⟨hEmp, hRe⟩⟩
    constructor
    · intro hfalse
      rw [hEmp] at hfalse
      cases hfalse
    · intro hex
      exact absurd hex hx

/-- Witness for claim C9 at the solid red opaque one-pixel image. -/
theorem claim_C9_rgba_emptiness_witness :
    ∃ a : ImageAnalysis, analyze_image_content (some opaqueImg) = some a ∧
      (a.is_empty = false ↔ ∃ p ∈ opaqueImg.pixels, 0 < p.getD 3 0) ∧
      ((∀ p ∈ opaqueImg.pixels, p.getD 3 0 = 0) →
        a.is_empty = true ∧ a.reason = some "fully_transparent") :=
  claim_C9_rgba_emptiness opaqueImg rfl rfl (by decide)

/-- Claim C1, evaluated at the failing input: a leaf layer whose preview is
extracted but classified empty gets preview_status
extracted_but_empty_fully_transparent, yet count_layers counts it into
failed_extractions and leaves empty_extractions at zero, because the
empty-substring test is nested under a success-substring test that no
extracted_but_empty status can pass. -/
theorem claim_C1_empty_counted_as_failed :
    (export_layer transparentLayer "p").preview_status =
      "extracted_but_empty_fully_transparent" ∧
    count_layers {} [export_layer transparentLayer "p"] =
      { total_layers := 1, successful_extractions := 0,
        empty_extractions := 0, failed_extractions := 1 } :=
  ⟨rfl, rfl⟩

/-- Claim C2 counterexample: when the original open fails with an exception
class other than ValueError, process_psd_file does not return False: the
except ValueError clause does not catch it and it propagates. -/
theorem claim_C2_counterexample :
    process_psd_file "a.psd"
      { file_exists := true,
        open_result := .error (.otherError "OSError: boom"),
        open_force_result := .error "x" } = .raised "OSError: boom" ∧
    ProcessResult.raised "OSError: boom" ≠ ProcessResult.returned_false :=
  ⟨rfl, fun h => ProcessResult.noConfusion h⟩

/-- Claim C2 (amended): a ValueError from the open whose message contains the
ColorMode marker triggers one forced retry, which proceeds with decoding on
success and returns False when the retry raises anything; a ValueError
without the marker returns False; an exception of any other class propagates
instead of returning False. -/
theorem claim_C2_colormode_fallback (fname : String) (src : PsdSource) (msg : String)
    (hex : src.file_exists = true) :
    (src.open_result = .error (.valueError msg) →
      ((strContains msg "is not a valid ColorMode" = true →
        (∀ psd, src.open_force_result = .ok psd →
          process_psd_file fname src = .completed (build_output fname psd)) ∧
        (∀ e, src.open_force_result = .error e →
          process_psd_file fname src = .returned_false)) ∧
      (strContains msg "is not a valid ColorMode" = false →
        process_psd_file fname src = .returned_false))) ∧
    (∀ m, src.open_result = .error (.otherError m) →
      process_psd_file fname src = .raised m) := by
  constructor
  · intro hr
    constructor
    · intro hsub
      constructor
      · intro psd hfr
        simp [process_psd_file, hex, hr, hsub, hfr]
      · intro e hfr
        simp [process_psd_file, hex, hr, hsub, hfr]
    · intro hsub
      simp [process_psd_file, hex, hr, hsub]
  · intro m hr
    simp [process_psd_file, hex, hr]

/-- Witness for claim C2 at a concrete source whose open raises the invalid
ColorMode ValueError and whose forced retry succeeds. -/
theorem claim_C2_colormode_fallback_witness :
    process_psd_file "a.psd" c2Src = .completed (build_output "a.psd" onePsd) :=
  (((claim_C2_colormode_fallback "a.psd" c2Src "270 is not a valid ColorMode" rfl).1
    rfl).1 (by rfl)).1 onePsd rfl

/-- Claim C8 counterexample: exporting a group with no children yields an
entry whose children key holds an empty list, and count_layers counts that
group entry itself, into the total and the failed bucket. -/
theorem claim_C8_counterexample :
    (export_layer emptyGroupLayer "g").children = some [] ∧
    count_layers {} [export_layer emptyGroupLayer "g"] =
      { total_layers := 1, successful_extractions := 0,
        empty_extractions := 0, failed_extractions := 1 } :=
  ⟨rfl, rfl⟩

/-- Claim C8 (amended): after counting any layer tree, total_layers equals
successful plus empty plus failed; an entry is counted, into exactly one
bucket, precisely when its children key is absent or an empty list (so a
childless group entry is itself counted), and an entry with a nonempty
children list is never counted itself: only its descendants are visited. -/
theorem claim_C8_summary_invariant :
    (∀ (ds : List LayerDict) (s : Summary), s.balanced → (count_layers s ds).balanced) ∧
    (∀ (s : Summary) (i : Int) (n t ps : String) (lp : LayerProperties)
        (ia : Option ImageAnalysis) (pv : Option String) (k : LayerDict)
        (ks : List LayerDict),
        count_one s (.mk i n t ps lp ia pv (some (k :: ks))) = count_layers s (k :: ks)) ∧
    (∀ (s : Summary) (i : Int) (n t ps : String) (lp : LayerProperties)
        (ia : Option ImageAnalysis) (pv : Option String) (ch : Option (List LayerDict)),
        ch = Option.none ∨ ch = some [] →
        count_one s (.mk i n t ps lp ia pv ch) = count_leaf s ps ∧
        (count_leaf s ps).total_layers = s.total_layers + 1) := by
  refine ⟨fun ds s h => count_layers_balanced ds s h, fun _ _ _ _ _ _ _ _ _ _ => rfl, ?_⟩
  rintro s i n t ps lp ia pv ch (rfl | rfl)
  · exact ⟨rfl, count_leaf_total s ps⟩
  · exact ⟨rfl, count_leaf_total s ps⟩

/-- Witness for claim C8 at the exported childless group. -/
theorem claim_C8_summary_invariant_witness :
    (count_layers {} [export_layer emptyGroupLayer "g"]).balanced ∧
    count_one {} (.mk 1 "g" "group" "not_attempted"
        (get_layer_properties baseLayerData) Option.none Option.none (some [])) =
      count_leaf {} "not_attempted" :=
  ⟨claim_C8_summary_invariant.1 [export_layer emptyGroupLayer "g"] {} rfl,
   (claim_C8_summary_invariant.2.2 {} 1 "g" "group" "not_attempted"
     (get_layer_properties baseLayerData) Option.none Option.none (some [])
     (Or.inr rfl)).1⟩

/-- Claim C3: a non-group layer with no pixel data yields preview_status
no_pixels with no preview file and no image analysis, while a layer decoding
to a fully transparent RGBA buffer yields
extracted_but_empty_fully_transparent with an analysis whose reason is
fully_transparent, and the two statuses differ. -/
theorem claim_C3_no_pixels_vs_blank (l1 l2 : LayerData) (cs1 cs2 : List Layer)
    (p1 p2 : String) (img : PILImage)
    (h1g : l1.is_group = false) (h1t : l1.topil = .ok Option.none)
    (h1p : l1.has_pixels = false) (h1f : l1.composite_forced = .ok Option.none)
    (h2g : l2.is_group = false) (h2t : l2.topil = .ok (some img))
    (hm : img.mode = "RGBA") (hd : img.ndim3 = true) (hc : 4 ≤ img.channels)
    (ha : ∀ q ∈ img.pixels, q.getD 3 0 = 0) (hs : l2.save_raises = false) :
    (export_layer (.mk l1 cs1) p1).preview_status = "no_pixels" ∧
    (export_layer (.mk l1 cs1) p1).preview = Option.none ∧
    (export_layer (.mk l1 cs1) p1).image_analysis = Option.none ∧
    (export_layer (.mk l2 cs2) p2).preview_status =
      "extracted_but_empty_fully_transparent" ∧
    (∃ a, (export_layer (.mk l2 cs2) p2).image_analysis = some a ∧
      a.reason = some "fully_transparent") ∧
    (export_layer (.mk l1 cs1) p1).preview_status ≠
      (export_layer (.mk l2 cs2) p2).preview_status := by
  have hx1 : extract_image l1 = (Option.none, Option.none) :=
    extract_image_none l1 (Or.inl h1t) (Or.inl h1p) (Or.inr (Or.inl h1f))
  have hp1 : process_leaf l1 (preview_name p1 l1.name) =
      ("no_pixels", Option.none, Option.none) := by
    rw [process_leaf_no_image l1 _ hx1, h1p]
    simp
  rcases analyze_rgba_transparent img hm hd hc ha with ⟨a, hae, haem, har⟩
  have hx2 := extract_image_topil l2 img h2t
  have hp2 : process_leaf l2 (preview_name p2 l2.name) =
      ("extracted_but_empty_fully_transparent",
       some (preview_name p2 l2.name), some a) := by
    rw [process_leaf_empty l2 _ img "topil" hx2 hs a hae haem, har]
    rfl
  refine ⟨?_, ?_, ?_, ?_, ⟨a, ?_, har⟩, ?_⟩
  · rw [export_layer_leaf l1 cs1 p1 h1g]
    show (process_leaf l1 (preview_name p1 l1.name)).1 = "no_pixels"
    rw [hp1]
  · rw [export_layer_leaf l1 cs1 p1 h1g]
    show (process_leaf l1 (preview_name p1 l1.name)).2.1 = Option.none
    rw [hp1]
  · rw [export_layer_leaf l1 cs1 p1 h1g]
    show (process_leaf l1 (preview_name p1 l1.name)).2.2 = Option.none
    rw [hp1]
  · rw [export_layer_leaf l2 cs2 p2 h2g]
    show (process_leaf l2 (preview_name p2 l2.name)).1 =
      "extracted_but_empty_fully_transparent"
    rw [hp2]
  · rw [export_layer_leaf l2 cs2 p2 h2g]
    show (process_leaf l2 (preview_name p2 l2.name)).2.2 = some a
    rw [hp2]
  · rw [export_layer_leaf l1 cs1 p1 h1g, export_layer_leaf l2 cs2 p2 h2g]
    show (process_leaf l1 (preview_name p1 l1.name)).1 ≠
      (process_leaf l2 (preview_name p2 l2.name)).1
    rw [hp1, hp2]
    show "no_pixels" ≠ "extracted_but_empty_fully_transparent"
    decide

/-- Witness for claim C3 at a layer with no pixel data and a layer decoding
to the fully transparent one-pixel image. -/
theorem claim_C3_no_pixels_vs_blank_witness :
    (export_layer (.mk baseLayerData []) "p").preview_status = "no_pixels" ∧
    (export_layer (.mk baseLayerData []) "p").preview = Option.none ∧
    (export_layer (.mk baseLayerData []) "p").image_analysis = Option.none ∧
    (export_layer transparentLayer "q").preview_status =
      "extracted_but_empty_fully_transparent" ∧
    (∃ a, (export_layer transparentLayer "q").image_analysis = some a ∧
      a.reason = some "fully_transparent") ∧
    (export_layer (.mk baseLayerData []) "p").preview_status ≠
      (export_layer transparentLayer "q").preview_status :=
  claim_C3_no_pixels_vs_blank baseLayerData
    { baseLayerData with topil := .ok (some transparentImg) } [] [] "p" "q"
    transparentImg rfl rfl rfl rfl rfl rfl rfl rfl (by decide)
    (by intro q hq; simp [transparentImg] at hq; simp [hq]) rfl

/-- Claim C4 counterexample: a layer whose three extraction methods all raise
does not get preview_status error: the per-method handlers swallow the
exceptions and the status records the fallback outcome. -/
theorem claim_C4_counterexample :
    (export_layer (.mk failLayerData []) "p").preview_status =
      "has_pixels_but_no_extraction" ∧
    (export_layer (.mk failLayerData []) "p").preview_status ≠ "error" :=
  ⟨rfl, by decide⟩

/-- Claim C4 (amended): failures are confined to the failing layer and every
other layer still gets its JSON entry (the exported tree always has the full
shape of the input tree): exceptions raised by the individual extraction
methods are swallowed in place, leaving status has_pixels_but_no_extraction
or no_pixels according to has_pixels, while an exception escaping to the
per-layer handler (such as a raising preview save) yields status error. -/
theorem claim_C4_error_isolation :
    (∀ (l : Layer) (p : String), LayerDict.shape (export_layer l p) = Layer.shape l) ∧
    (∀ (d : LayerData) (cs : List Layer) (p : String) (e1 e2 e3 : String),
      d.is_group = false → d.topil = .error e1 → d.composite = .error e2 →
      d.composite_forced = .error e3 →
      ((d.has_pixels = true →
        (export_layer (.mk d cs) p).preview_status = "has_pixels_but_no_extraction") ∧
       (d.has_pixels = false →
        (export_layer (.mk d cs) p).preview_status = "no_pixels"))) ∧
    (∀ (d : LayerData) (cs : List Layer) (p : String) (img : PILImage) (m : String),
      d.is_group = false → extract_image d = (some img, some m) →
      d.save_raises = true →
      (export_layer (.mk d cs) p).preview_status = "error") := by
  refine ⟨export_layer_shape, ?_, ?_⟩
  · intro d cs p e1 e2 e3 hg ht hcmp hf
    have hx : extract_image d = (Option.none, Option.none) :=
      extract_image_none d (Or.inr ⟨e1, ht⟩) (Or.inr (Or.inr ⟨e2, hcmp⟩))
        (Or.inr (Or.inr ⟨e3, hf⟩))
    constructor <;> intro hp <;> rw [export_layer_leaf d cs p hg] <;>
      simp [LayerDict.preview_status, process_leaf_no_image d _ hx, hp]
  · intro d cs p img m hg hx hs
    rw [export_layer_leaf d cs p hg]
    simp only [LayerDict.preview_status]
    exact process_leaf_save_error d _ img m hx hs

/-- Witness for claim C4 at the all-methods-raising layer and at a layer
whose preview save raises. -/
theorem claim_C4_error_isolation_witness :
    LayerDict.shape (export_layer (.mk failLayerData []) "p") =
      Layer.shape (.mk failLayerData []) ∧
    (export_layer (.mk failLayerData []) "p").preview_status =
      "has_pixels_but_no_extraction" ∧
    (export_layer
      (.mk { baseLayerData with topil := .ok (some opaqueImg), save_raises := true } [])
      "p").preview_status = "error" :=
  ⟨claim_C4_error_isolation.1 (.mk failLayerData []) "p",
   (claim_C4_error_isolation.2.1 failLayerData [] "p" "channel decode failed"
     "composite failed" "forced composite failed" rfl rfl rfl rfl).1 rfl,
   claim_C4_error_isolation.2.2
     { baseLayerData with topil := .ok (some opaqueImg), save_raises := true }
     [] "p" opaqueImg "topil" rfl rfl rfl⟩

/-- Claim C10: the extraction cascade tries topil, then plain composite only
when no image was produced and the layer reports pixels, then forced
composite only when still no image was produced; the preview status of a
nonempty extraction records the first method that succeeded. -/
theorem claim_C10_fallback_order :
    (∀ (l : LayerData) (img : PILImage), l.topil = .ok (some img) →
      ∀ c f, extract_image { l with composite := c, composite_forced := f } =
        (some img, some "topil")) ∧
    (∀ (l : LayerData), l.has_pixels = false →
      ∀ c c', extract_image { l with composite := c } =
        extract_image { l with composite := c' }) ∧
    (∀ (l : LayerData) (img : PILImage),
      (l.topil = .ok (some img) ∨
        (l.has_pixels = true ∧ l.composite = .ok (some img))) →
      ∀ f f', extract_image { l with composite_forced := f } =
        extract_image { l with composite_forced := f' }) ∧
    (∀ (d : LayerData) (cs : List Layer) (p : String) (img : PILImage),
      d.is_group = false → d.save_raises = false →
      img.mode = "RGBA" → img.ndim3 = true → 4 ≤ img.channels →
      (∃ q ∈ img.pixels, 0 < q.getD 3 0) →
      ((d.topil = .ok (some img) →
        (export_layer (.mk d cs) p).preview_status = "success_topil") ∧
       ((d.topil = .ok Option.none ∨ ∃ e, d.topil = .error e) →
        d.has_pixels = true → d.composite = .ok (some img) →
        (export_layer (.mk d cs) p).preview_status = "success_composite") ∧
       ((d.topil = .ok Option.none ∨ ∃ e, d.topil = .error e) →
        (d.has_pixels = false ∨ d.composite = .ok Option.none ∨
          ∃ e, d.composite = .error e) →
        d.has_composite_attr = true → d.composite_forced = .ok (some img) →
        (export_layer (.mk d cs) p).preview_status = "success_composite_forced"))) := by
  refine ⟨?_, ?_, ?_, ?_⟩
  · intro l img ht c f
    unfold extract_image
    simp [ht]
  · intro l hp c c'
    rcases htp : l.topil with e | o
    · unfold extract_image
      simp [htp, hp]
    · cases o <;> unfold extract_image <;> simp [htp, hp]
  · intro l img hcase f f'
    rcases hcase with ht | ⟨hp, hcmp⟩
    · unfold extract_image
      simp [ht]
    · rcases htp : l.topil with e | o
      · unfold extract_image
        simp [htp, hp, hcmp]
      · cases o <;> unfold extract_image <;> simp [htp, hp, hcmp]
  · intro d cs p img hg hs hm hd hc hx
    rcases analyze_rgba_nonempty img hm hd hc hx with ⟨a, hae, haem, _⟩
    refine ⟨?_, ?_, ?_⟩
    · intro ht
      rw [export_layer_leaf d cs p hg]
      show (process_leaf d (preview_name p d.name)).1 = "success_topil"
      rw [process_leaf_success d _ img "topil" (extract_image_topil d img ht) hs a hae haem]
      rfl
    · intro ht hp hcmp
      rw [export_layer_leaf d cs p hg]
      show (process_leaf d (preview_name p d.name)).1 = "success_composite"
      rw [process_leaf_success d _ img "composite"
        (extract_image_composite d img ht hp hcmp) hs a hae haem]
      rfl
    · intro ht hcp hattr hforce
      rw [export_layer_leaf d cs p hg]
      show (process_leaf d (preview_name p d.name)).1 = "success_composite_forced"
      rw [process_leaf_success d _ img "composite_forced"
        (extract_image_forced d img ht hcp hattr hforce) hs a hae haem]
      rfl

/-- Witness for claim C10 at concrete layers built over the opaque one-pixel
image. -/
theorem claim_C10_fallback_order_witness :
    extract_image { { baseLayerData with topil := .ok (some opaqueImg) } with
      composite := .error "x", composite_forced := .error "y" } =
      (some opaqueImg, some "topil") ∧
    (export_layer (.mk { baseLayerData with topil := .ok (some opaqueImg) } [])
      "p").preview_status = "success_topil" :=
  ⟨claim_C10_fallback_order.1 { baseLayerData with topil := .ok (some opaqueImg) }
     opaqueImg rfl (.error "x") (.error "y"),
   (claim_C10_fallback_order.2.2.2 { baseLayerData with topil := .ok (some opaqueImg) }
     [] "p" opaqueImg rfl rfl rfl rfl (by decide)
     ⟨[255, 0, 0, 255], by decide, by decide⟩).1 rfl⟩

/-- Claim C5: text-styling interpretation errors never propagate past the
text extraction step.  The exported entry always carries the computed
properties; a malformed ParagraphRun value raises after the StyleRun fields
were parsed and the returned style keeps exactly those fields (the caught
flag records that an exception was swallowed); a raising tagged-blocks read
is likewise swallowed and the engine fields are still parsed afterwards. -/
theorem claim_C5_partial_text_styles :
    (∀ (d : LayerData) (cs : List Layer) (p : String),
      (export_layer (.mk d cs) p).layer_properties = get_layer_properties d) ∧
    (∀ (base : LayerData) (t : String) (fam fsz : PyVal), t ≠ "" →
      (text_styles_body Option.none
        (some (.dict [("StyleRun", styleRunOf fam fsz), ("ParagraphRun", PyVal.num 7)]))
        (tagged_blocks_body Option.none {}).1).2 = true ∧
      (get_layer_properties
        { base with
          text := some t, text_data := Option.none, record := Option.none,
          engine_dict := some (.dict [("StyleRun", styleRunOf fam fsz),
            ("ParagraphRun", PyVal.num 7)]) }).text_style =
        some { font_family := some fam,
               font_size := some fsz,
               color := some PyVal.none,
               tracking := some PyVal.none,
               leading := some PyVal.none }) ∧
    (∀ (base : LayerData) (t : String) (fam fsz : PyVal) (em : String), t ≠ "" →
      tagged_blocks_body (some { tagged_blocks := some (.error em) }) {} = ({}, true) ∧
      (get_layer_properties
        { base with
          text := some t, text_data := Option.none,
          record := some { tagged_blocks := some (.error em) },
          engine_dict := some (.dict [("StyleRun", styleRunOf fam fsz)]) }).text_style =
        some { font_family := some fam,
               font_size := some fsz,
               color := some PyVal.none,
               tracking := some PyVal.none,
               leading := some PyVal.none }) := by
  refine ⟨fun d cs p => rfl, ?_, ?_⟩
  · intro base t fam fsz ht
    have hne : (t == "") = false := by simp [ht]
    exact ⟨rfl, by simp [get_layer_properties, hne]; exact ⟨rfl, rfl⟩⟩
  · intro base t fam fsz em ht
    have hne : (t == "") = false := by simp [ht]
    exact ⟨rfl, by simp [get_layer_properties, hne]; exact ⟨rfl, rfl⟩⟩

/-- Witness for claim C5 at a concrete text layer with a malformed
ParagraphRun. -/
theorem claim_C5_partial_text_styles_witness :
    (get_layer_properties
      { baseLayerData with
        text := some "hello", text_data := Option.none, record := Option.none,
        engine_dict := some (.dict [("StyleRun", styleRunOf (.str "Arial") (.num 12)),
          ("ParagraphRun", PyVal.num 7)]) }).text_style =
      some { font_family := some (PyVal.str "Arial"),
             font_size := some (PyVal.num 12),
             color := some PyVal.none,
             tracking := some PyVal.none,
             leading := some PyVal.none } :=
  (claim_C5_partial_text_styles.2.1 baseLayerData "hello"
    (.str "Arial") (.num 12) (by decide)).2

/-- Claim C6 counterexample: an engine dictionary with an empty Transform
entry produces a transform whose absent coefficients are the numeric identity
defaults, not None. -/
theorem claim_C6_counterexample :
    (get_layer_properties c6Layer).text_style =
      some { transform := some identityTransform } ∧
    identityTransform.xy = PyVal.num 0 ∧ PyVal.num 0 ≠ PyVal.none :=
  ⟨rfl, rfl, fun h => PyVal.noConfusion h⟩

/-- Claim C6 (amended): style-run and paragraph-run fields absent from the
source data are represented as None; a transform coefficient absent from a
present Transform entry is instead defaulted to its identity component (1.0
for xx and yy, 0.0 for the others), and the transform key is omitted only
when the engine dictionary has no Transform entry at all. -/
theorem claim_C6_absent_fields (base : LayerData) (t : String)
    (sd pd td : List (String × PyVal)) (ht : t ≠ "") :
    (∃ ts, (get_layer_properties
      { base with
        text := some t, text_data := Option.none, record := Option.none,
        engine_dict := some (engineDictFull sd pd td) }).text_style = some ts ∧
      (sd.find? (fun e => e.1 == "Font") = Option.none →
        ts.font_family = some PyVal.none) ∧
      (sd.find? (fun e => e.1 == "FontSize") = Option.none →
        ts.font_size = some PyVal.none) ∧
      (sd.find? (fun e => e.1 == "FillColor") = Option.none →
        ts.color = some PyVal.none) ∧
      (sd.find? (fun e => e.1 == "Tracking") = Option.none →
        ts.tracking = some PyVal.none) ∧
      (sd.find? (fun e => e.1 == "Leading") = Option.none →
        ts.leading = some PyVal.none) ∧
      (pd.find? (fun e => e.1 == "Alignment") = Option.none →
        ts.alignment = some PyVal.none) ∧
      (pd.find? (fun e => e.1 == "Justification") = Option.none →
        ts.justification = some PyVal.none) ∧
      (∃ tr, ts.transform = some tr ∧
        (td.find? (fun e => e.1 == "xx") = Option.none → tr.xx = PyVal.num 1) ∧
        (td.find? (fun e => e.1 == "xy") = Option.none → tr.xy = PyVal.num 0) ∧
        (td.find? (fun e => e.1 == "yx") = Option.none → tr.yx = PyVal.num 0) ∧
        (td.find? (fun e => e.1 == "yy") = Option.none → tr.yy = PyVal.num 1) ∧
        (td.find? (fun e => e.1 == "tx") = Option.none → tr.tx = PyVal.num 0) ∧
        (td.find? (fun e => e.1 == "ty") = Option.none → tr.ty = PyVal.num 0))) ∧
    (get_layer_properties
      { base with
        text := some t, text_data := Option.none, record := Option.none,
        engine_dict := some (.dict [("StyleRun", styleRunSheets sd)]) }).text_style =
      some { font_family := some (dictGet sd "Font" .none),
             font_size := some (dictGet sd "FontSize" .none),
             color := some (dictGet sd "FillColor" .none),
             tracking := some (dictGet sd "Tracking" .none),
             leading := some (dictGet sd "Leading" .none) } := by
  have hne : (t == "") = false := by simp [ht]
  constructor
  · refine ⟨{ font_family := some (dictGet sd "Font" .none),
              font_size := some (dictGet sd "FontSize" .none),
              color := some (dictGet sd "FillColor" .none),
              tracking := some (dictGet sd "Tracking" .none),
              leading := some (dictGet sd "Leading" .none),
              alignment := some (dictGet pd "Alignment" .none),
              justification := some (dictGet pd "Justification" .none),
              transform := some { xx := dictGet td "xx" (.num 1),
                                  xy := dictGet td "xy" (.num 0),
                                  yx := dictGet td "yx" (.num 0),
                                  yy := dictGet td "yy" (.num 1),
                                  tx := dictGet td "tx" (.num 0),
                                  ty := dictGet td "ty" (.num 0) } },
      ?_, ?_, ?_, ?_, ?_, ?_, ?_, ?_,
      ⟨{ xx := dictGet td "xx" (.num 1), xy := dictGet td "xy" (.num 0),
         yx := dictGet td "yx" (.num 0), yy := dictGet td "yy" (.num 1),
         tx := dictGet td "tx" (.num 0), ty := dictGet td "ty" (.num 0) },
       rfl, ?_, ?_, ?_, ?_, ?_, ?_⟩⟩
    · simp [get_layer_properties, hne]
      exact ⟨rfl, rfl⟩
    all_goals intro h
    all_goals simp [dictGet, h]
  · simp [get_layer_properties, hne]
    exact ⟨rfl, rfl⟩

/-- Witness for claim C6 at a concrete text layer with empty style, paragraph
and transform dictionaries. -/
theorem claim_C6_absent_fields_witness :
    ∃ ts, (get_layer_properties
      { baseLayerData with
        text := some "hello", text_data := Option.none, record := Option.none,
        engine_dict := some (engineDictFull [] [] []) }).text_style = some ts ∧
      ts.font_family = some PyVal.none ∧
      ∃ tr, ts.transform = some tr ∧ tr.xy = PyVal.num 0 := by
  rcases (claim_C6_absent_fields baseLayerData "hello" [] [] [] (by decide)).1 with
    ⟨ts, hts, hf, _, _, _, _, _, _, tr, htr, _, hxy, _, _, _, _⟩
  exact ⟨ts, hts, hf rfl, tr, htr, hxy rfl⟩

/-- Claim C7: the emitted layer tree preserves on-disk order exactly: the
top-level entries map the document's layer sequence in order, every group's
children key lists the exports of the group's children in their original
order, and recursively the whole name-and-grouping shape of the document is
preserved, with no sorting anywhere. -/
theorem claim_C7_order_preservation (psd : PSD) (fname : String)
    (d : LayerData) (cs : List Layer) (p : String) (hg : d.is_group = true) :
    (build_output fname psd).layers.map LayerDict.shape =
      psd.layers.map Layer.shape ∧
    (build_output fname psd).layers.map LayerDict.name =
      psd.layers.map Layer.name ∧
    (export_layer (.mk d cs) p).children =
      some (cs.map (fun c => export_layer c (p ++ "_" ++ d.name))) ∧
    (cs.map (fun c => export_layer c (p ++ "_" ++ d.name))).map LayerDict.name =
      cs.map Layer.name := by
  refine ⟨?_, ?_, ?_, ?_⟩
  · show (psd.layers.map (fun l => export_layer l (Layer.name l))).map LayerDict.shape =
      psd.layers.map Layer.shape
    rw [List.map_map]
    exact List.map_congr_left fun l _ => export_layer_shape l (Layer.name l)
  · show (psd.layers.map (fun l => export_layer l (Layer.name l))).map LayerDict.name =
      psd.layers.map Layer.name
    rw [List.map_map]
    exact List.map_congr_left fun l _ => export_layer_name l (Layer.name l)
  · rw [export_layer_group d cs p hg]
    show some (export_children cs (p ++ "_" ++ d.name)) = _
    rw [export_children_eq_map]
  · rw [List.map_map]
    exact List.map_congr_left fun c _ => export_layer_name c (p ++ "_" ++ d.name)

/-- Witness for claim C7 at a one-child group over the one-layer document. -/
theorem claim_C7_order_preservation_witness :
    (export_layer (.mk { baseLayerData with is_group := true, kind := some "group" }
      [transparentLayer]) "g").children =
      some [export_layer transparentLayer "g_layer"] :=
  (claim_C7_order_preservation onePsd "a.psd"
    { baseLayerData with is_group := true, kind := some "group" }
    [transparentLayer] "g" rfl).2.2.1

end AssetGen
